import Mathlib

/-
  Verification development for the Interpreter-Lycosidae competition backend.

  Shallow embedding of the relationship-integrity layer:
  - src/app/models.py        : entity and relationship tables (SQLAlchemy rows
                               become Lean structures; the database becomes
                               lists of rows held in one `DB` structure).
  - src/app/schemas.py       : the pydantic DTO types returned by the helpers.
  - src/app/dbutils_mysql.py : entity lookups, `delete_competition`, and the six
                               relationship create/delete helpers.
  - src/app/routers.py       : the six relationship-creation endpoints.

  Modelling conventions:
  - `db.query(T).filter(...).first()` becomes `List.find?` on the list of rows
    (first row in insertion order matching the predicate).
  - `db.add(row); db.commit()` becomes appending the row to the list.
  - `db.delete(row); db.commit()` for the row returned by `.first()` becomes
    `List.eraseP` with the same predicate (removes exactly that first match).
  - MySQL's `default=lambda: str(uuid.uuid4())` id generation is modelled by an
    explicit `newId : String` argument supplied to each create helper.
  - Raising `HTTPException(code, detail)` in a router becomes returning
    `ApiResult.err code detail`; a normal return with status 201 becomes
    `ApiResult.ok 201 value`.
  - Logging and timing have no effect on data and are omitted.  The generic
    `except Exception` branches are omitted where nothing in the flow can
    raise; the one exception that can occur — the `AttributeError` raised by
    `exercise.port` in `get_exercise_by_id`, which those branches turn into
    an HTTP 500 — is modelled explicitly (`Except.error`, `ApiResult.err 500`).
-/

namespace Lyco

/-- Row of the `users` table (models.py `User`). -/
structure User where
  id : String
  username : String
  email : String
  password : String
  phone_number : Option String
  is_admin : Bool
deriving DecidableEq, Repr

/-- Row of the `competitions` table (models.py `Competition`); the two
datetime columns are carried as their ISO strings. -/
structure Competition where
  id : String
  name : String
  organizer : String
  invite_code : String
  start_date : String
  end_date : String
deriving DecidableEq, Repr

/-- Row of the `exercises` table (models.py `Exercise`). -/
structure Exercise where
  id : String
  link : String
  name : String
  score : Int
  difficulty : String
deriving DecidableEq, Repr

/-- Row of the `tags` table (models.py `Tag`). -/
structure Tag where
  id : String
  type : String
deriving DecidableEq, Repr

/-- Row of the `teams` table (models.py `Team`). -/
structure Team where
  id : String
  name : String
  competition : String
  creator : String
  score : Int
deriving DecidableEq, Repr

/-- Row of the `containers` table (models.py `Container`); the deadline is
carried as its ISO string. -/
structure Container where
  id : String
  deadline : String
deriving DecidableEq, Repr

/-- Row of the `user_competitions` table (models.py `UserCompetition`). -/
structure UserCompetition where
  id : String
  user_id : String
  competition_id : String
deriving DecidableEq, Repr

/-- Row of the `user_teams` table (models.py `UserTeam`). -/
structure UserTeam where
  id : String
  user_id : String
  team_id : String
deriving DecidableEq, Repr

/-- Row of the `team_competitions` table (models.py `TeamCompetition`). -/
structure TeamCompetition where
  id : String
  team_id : String
  competition_id : String
deriving DecidableEq, Repr

/-- Row of the `exercise_tags` table (models.py `ExerciseTag`). -/
structure ExerciseTag where
  id : String
  exercise_id : String
  tag_id : String
deriving DecidableEq, Repr

/-- Row of the `exercise_competitions` table (models.py `ExerciseCompetition`). -/
structure ExerciseCompetition where
  id : String
  exercise_id : String
  competition_id : String
deriving DecidableEq, Repr

/-- Row of the `container_competitions` table (models.py `ContainerCompetition`). -/
structure ContainerCompetition where
  id : String
  container_id : String
  competition_id : String
deriving DecidableEq, Repr

/-- The database: one list of rows per table, in insertion order. -/
structure DB where
  users : List User
  competitions : List Competition
  exercises : List Exercise
  tags : List Tag
  teams : List Team
  containers : List Container
  user_competitions : List UserCompetition
  user_teams : List UserTeam
  team_competitions : List TeamCompetition
  exercise_tags : List ExerciseTag
  exercise_competitions : List ExerciseCompetition
  container_competitions : List ContainerCompetition
deriving DecidableEq, Repr

/-- schemas.py `UserReadDTO`: no password field. -/
structure UserReadDTO where
  id : String
  username : String
  email : String
  phone_number : Option String
deriving DecidableEq, Repr

/-- schemas.py `CompetitionReadDTO`. -/
structure CompetitionReadDTO where
  id : String
  name : String
  organizer : String
  invite_code : String
  start_date : String
  end_date : String
deriving DecidableEq, Repr

/-- schemas.py `ExerciseReadDTO`. -/
structure ExerciseReadDTO where
  id : String
  link : String
  name : String
  score : Int
  difficulty : String
deriving DecidableEq, Repr

/-- schemas.py `TagReadDTO`. -/
structure TagReadDTO where
  id : String
  type : String
deriving DecidableEq, Repr

/-- schemas.py `TeamReadDTO`. -/
structure TeamReadDTO where
  id : String
  name : String
  competition : String
  creator : String
  score : Int
deriving DecidableEq, Repr

/-- schemas.py `ContainerReadDTO`. -/
structure ContainerReadDTO where
  id : String
  deadline : String
deriving DecidableEq, Repr

/-- schemas.py `UserCompetitionCreateDTO`. -/
structure UserCompetitionCreateDTO where
  user_id : String
  competition_id : String
deriving DecidableEq, Repr

/-- schemas.py `UserTeamCreateDTO`. -/
structure UserTeamCreateDTO where
  user_id : String
  team_id : String
deriving DecidableEq, Repr

/-- schemas.py `TeamCompetitionCreateDTO`. -/
structure TeamCompetitionCreateDTO where
  team_id : String
  competition_id : String
deriving DecidableEq, Repr

/-- schemas.py `ExerciseTagCreateDTO`. -/
structure ExerciseTagCreateDTO where
  exercise_id : String
  tag_id : String
deriving DecidableEq, Repr

/-- schemas.py `ExerciseCompetitionCreateDTO`. -/
structure ExerciseCompetitionCreateDTO where
  exercise_id : String
  competition_id : String
deriving DecidableEq, Repr

/-- schemas.py `ContainerCompetitionCreateDTO`. -/
structure ContainerCompetitionCreateDTO where
  container_id : String
  competition_id : String
deriving DecidableEq, Repr

/-- dbutils_mysql.py `get_user_by_id` (lines 33-40): first user with the id,
projected to `UserReadDTO` (id, username, email, phone_number only). -/
def get_user_by_id (db : DB) (user_id : String) : Option UserReadDTO :=
  match db.users.find? (fun u => u.id == user_id) with
  | some u => some { id := u.id, username := u.username, email := u.email,
                     phone_number := u.phone_number }
  | none => none

/-- dbutils_mysql.py `get_competition_by_id` (lines 89-103). -/
def get_competition_by_id (db : DB) (competition_id : String) :
    Option CompetitionReadDTO :=
  match db.competitions.find? (fun c => c.id == competition_id) with
  | some c => some { id := c.id, name := c.name, organizer := c.organizer,
                     invite_code := c.invite_code, start_date := c.start_date,
                     end_date := c.end_date }
  | none => none

/-- Message of the `AttributeError` raised by the `exercise.port` access in
`get_exercise_by_id`; the routers surface `str(e)` as the 500 detail. -/
def exercisePortError : String :=
  "Exercise object has no attribute port"

/-- dbutils_mysql.py `get_exercise_by_id` (lines 236-250): finds the first
exercise with the id.  The source then builds `ExerciseReadDTO(...,
port=exercise.port)` (line 248), but the `Exercise` model (models.py lines
34-41) has no `port` column, so whenever the exercise exists the attribute
access raises `AttributeError` before any DTO is produced; only the absent
case returns normally (None).  The raised exception is modelled as
`Except.error` carrying the message the routers turn into a 500 detail. -/
def get_exercise_by_id (db : DB) (exercise_id : String) :
    Except String (Option ExerciseReadDTO) :=
  match db.exercises.find? (fun e => e.id == exercise_id) with
  | some _ => .error exercisePortError
  | none => .ok none

/-- dbutils_mysql.py `get_tag_by_id` (lines 355-362). -/
def get_tag_by_id (db : DB) (tag_id : String) : Option TagReadDTO :=
  match db.tags.find? (fun t => t.id == tag_id) with
  | some t => some { id := t.id, type := t.type }
  | none => none

/-- dbutils_mysql.py `get_team_by_id` (lines 449-462). -/
def get_team_by_id (db : DB) (team_id : String) : Option TeamReadDTO :=
  match db.teams.find? (fun t => t.id == team_id) with
  | some t => some { id := t.id, name := t.name, competition := t.competition,
                     creator := t.creator, score := t.score }
  | none => none

/-- dbutils_mysql.py `get_container_by_id` (lines 564-571). -/
def get_container_by_id (db : DB) (container_id : String) : Option ContainerReadDTO :=
  match db.containers.find? (fun c => c.id == container_id) with
  | some c => some { id := c.id, deadline := c.deadline }
  | none => none

/-- dbutils_mysql.py `delete_competition` (lines 203-234): finds the
competition by id; if absent returns False, else deletes that row and
returns True.  Nothing else in the database is touched (no cascade). -/
def delete_competition (db : DB) (competition_id : String) : Bool × DB :=
  match db.competitions.find? (fun c => c.id == competition_id) with
  | none => (false, db)
  | some _ =>
      (true, { db with competitions :=
                 db.competitions.eraseP (fun c => c.id == competition_id) })

/-- dbutils_mysql.py `create_user_competition` (lines 657-702): if a row with
the same (user_id, competition_id) exists, return None and leave the store
unchanged; otherwise insert a new row with a fresh id and return the DTO
built from the new row's two reference columns. -/
def create_user_competition (newId : String) (db : DB)
    (dto : UserCompetitionCreateDTO) : Option UserCompetitionCreateDTO × DB :=
  match db.user_competitions.find? (fun r =>
      r.user_id == dto.user_id && r.competition_id == dto.competition_id) with
  | some _ => (none, db)
  | none =>
      let uc : UserCompetition :=
        { id := newId, user_id := dto.user_id, competition_id := dto.competition_id }
      (some { user_id := uc.user_id, competition_id := uc.competition_id },
       { db with user_competitions := db.user_competitions ++ [uc] })

/-- dbutils_mysql.py `delete_user_competition` (lines 704-741): finds the
first row matching the pair; if absent returns False with no write, else
deletes that row and returns True. -/
def delete_user_competition (db : DB) (user_id : String) (competition_id : String) :
    Bool × DB :=
  match db.user_competitions.find? (fun r =>
      r.user_id == user_id && r.competition_id == competition_id) with
  | none => (false, db)
  | some _ =>
      (true, { db with user_competitions := db.user_competitions.eraseP (fun r =>
                 r.user_id == user_id && r.competition_id == competition_id) })

/-- dbutils_mysql.py `create_user_team` (lines 743-788). -/
def create_user_team (newId : String) (db : DB)
    (dto : UserTeamCreateDTO) : Option UserTeamCreateDTO × DB :=
  match db.user_teams.find? (fun r =>
      r.user_id == dto.user_id && r.team_id == dto.team_id) with
  | some _ => (none, db)
  | none =>
      let ut : UserTeam :=
        { id := newId, user_id := dto.user_id, team_id := dto.team_id }
      (some { user_id := ut.user_id, team_id := ut.team_id },
       { db with user_teams := db.user_teams ++ [ut] })

/-- dbutils_mysql.py `delete_user_team` (lines 790-827). -/
def delete_user_team (db : DB) (user_id : String) (team_id : String) :
    Bool × DB :=
  match db.user_teams.find? (fun r =>
      r.user_id == user_id && r.team_id == team_id) with
  | none => (false, db)
  | some _ =>
      (true, { db with user_teams := db.user_teams.eraseP (fun r =>
                 r.user_id == user_id && r.team_id == team_id) })

/-- dbutils_mysql.py `create_team_competition` (lines 829-874). -/
def create_team_competition (newId : String) (db : DB)
    (dto : TeamCompetitionCreateDTO) : Option TeamCompetitionCreateDTO × DB :=
  match db.team_competitions.find? (fun r =>
      r.team_id == dto.team_id && r.competition_id == dto.competition_id) with
  | some _ => (none, db)
  | none =>
      let tc : TeamCompetition :=
        { id := newId, team_id := dto.team_id, competition_id := dto.competition_id }
      (some { team_id := tc.team_id, competition_id := tc.competition_id },
       { db with team_competitions := db.team_competitions ++ [tc] })

/-- dbutils_mysql.py `delete_team_competition` (lines 876-913). -/
def delete_team_competition (db : DB) (team_id : String) (competition_id : String) :
    Bool × DB :=
  match db.team_competitions.find? (fun r =>
      r.team_id == team_id && r.competition_id == competition_id) with
  | none => (false, db)
  | some _ =>
      (true, { db with team_competitions := db.team_competitions.eraseP (fun r =>
                 r.team_id == team_id && r.competition_id == competition_id) })

/-- dbutils_mysql.py `create_exercise_tag` (lines 915-960). -/
def create_exercise_tag (newId : String) (db : DB)
    (dto : ExerciseTagCreateDTO) : Option ExerciseTagCreateDTO × DB :=
  match db.exercise_tags.find? (fun r =>
      r.exercise_id == dto.exercise_id && r.tag_id == dto.tag_id) with
  | some _ => (none, db)
  | none =>
      let et : ExerciseTag :=
        { id := newId, exercise_id := dto.exercise_id, tag_id := dto.tag_id }
      (some { exercise_id := et.exercise_id, tag_id := et.tag_id },
       { db with exercise_tags := db.exercise_tags ++ [et] })

/-- dbutils_mysql.py `delete_exercise_tag` (lines 962-999). -/
def delete_exercise_tag (db : DB) (exercise_id : String) (tag_id : String) :
    Bool × DB :=
  match db.exercise_tags.find? (fun r =>
      r.exercise_id == exercise_id && r.tag_id == tag_id) with
  | none => (false, db)
  | some _ =>
      (true, { db with exercise_tags := db.exercise_tags.eraseP (fun r =>
                 r.exercise_id == exercise_id && r.tag_id == tag_id) })

/-- dbutils_mysql.py `create_exercise_competition` (lines 1001-1046). -/
def create_exercise_competition (newId : String) (db : DB)
    (dto : ExerciseCompetitionCreateDTO) :
    Option ExerciseCompetitionCreateDTO × DB :=
  match db.exercise_competitions.find? (fun r =>
      r.exercise_id == dto.exercise_id && r.competition_id == dto.competition_id) with
  | some _ => (none, db)
  | none =>
      let ec : ExerciseCompetition :=
        { id := newId, exercise_id := dto.exercise_id,
          competition_id := dto.competition_id }
      (some { exercise_id := ec.exercise_id, competition_id := ec.competition_id },
       { db with exercise_competitions := db.exercise_competitions ++ [ec] })

/-- dbutils_mysql.py `delete_exercise_competition` (lines 1048-1085). -/
def delete_exercise_competition (db : DB) (exercise_id : String)
    (competition_id : String) : Bool × DB :=
  match db.exercise_competitions.find? (fun r =>
      r.exercise_id == exercise_id && r.competition_id == competition_id) with
  | none => (false, db)
  | some _ =>
      (true, { db with exercise_competitions :=
                 db.exercise_competitions.eraseP (fun r =>
                   r.exercise_id == exercise_id && r.competition_id == competition_id) })

/-- dbutils_mysql.py `create_container_competition` (lines 1087-1132). -/
def create_container_competition (newId : String) (db : DB)
    (dto : ContainerCompetitionCreateDTO) :
    Option ContainerCompetitionCreateDTO × DB :=
  match db.container_competitions.find? (fun r =>
      r.container_id == dto.container_id && r.competition_id == dto.competition_id) with
  | some _ => (none, db)
  | none =>
      let cc : ContainerCompetition :=
        { id := newId, container_id := dto.container_id,
          competition_id := dto.competition_id }
      (some { container_id := cc.container_id, competition_id := cc.competition_id },
       { db with container_competitions := db.container_competitions ++ [cc] })

/-- dbutils_mysql.py `delete_container_competition` (lines 1134-1171). -/
def delete_container_competition (db : DB) (container_id : String)
    (competition_id : String) : Bool × DB :=
  match db.container_competitions.find? (fun r =>
      r.container_id == container_id && r.competition_id == competition_id) with
  | none => (false, db)
  | some _ =>
      (true, { db with container_competitions :=
                 db.container_competitions.eraseP (fun r =>
                   r.container_id == container_id && r.competition_id == competition_id) })

/-- Outcome of a request handler: `ok status value` for a normal response,
`err status detail` for a raised `HTTPException(status, detail)`. -/
inductive ApiResult (α : Type) where
  | ok : Nat → α → ApiResult α
  | err : Nat → String → ApiResult α
deriving DecidableEq, Repr

/-- routers.py `create_user_competition_endpoint` (lines 637-692): checks that
the user and the competition exist (400 naming the missing one otherwise),
then calls `create_user_competition`; an absent result becomes a 400
"Relacionamento já existe"; a present result is returned with status 201. -/
def create_user_competition_endpoint (newId : String) (db : DB)
    (payload : UserCompetitionCreateDTO) :
    ApiResult UserCompetitionCreateDTO × DB :=
  match get_user_by_id db payload.user_id with
  | none => (.err 400 "Usuário não encontrado", db)
  | some _ =>
    match get_competition_by_id db payload.competition_id with
    | none => (.err 400 "Competição não encontrada", db)
    | some _ =>
      match create_user_competition newId db payload with
      | (none, db2) => (.err 400 "Relacionamento já existe", db2)
      | (some uc, db2) => (.ok 201 uc, db2)

/-- routers.py `create_user_team_endpoint` (lines 745-768). -/
def create_user_team_endpoint (newId : String) (db : DB)
    (payload : UserTeamCreateDTO) : ApiResult UserTeamCreateDTO × DB :=
  match get_user_by_id db payload.user_id with
  | none => (.err 400 "Usuário não encontrado", db)
  | some _ =>
    match get_team_by_id db payload.team_id with
    | none => (.err 400 "Time não encontrado", db)
    | some _ =>
      match create_user_team newId db payload with
      | (none, db2) => (.err 400 "Relacionamento já existe", db2)
      | (some ut, db2) => (.ok 201 ut, db2)

/-- routers.py `create_team_competition_endpoint` (lines 787-810). -/
def create_team_competition_endpoint (newId : String) (db : DB)
    (payload : TeamCompetitionCreateDTO) : ApiResult TeamCompetitionCreateDTO × DB :=
  match get_team_by_id db payload.team_id with
  | none => (.err 400 "Time não encontrado", db)
  | some _ =>
    match get_competition_by_id db payload.competition_id with
    | none => (.err 400 "Competição não encontrada", db)
    | some _ =>
      match create_team_competition newId db payload with
      | (none, db2) => (.err 400 "Relacionamento já existe", db2)
      | (some tc, db2) => (.ok 201 tc, db2)

/-- routers.py `create_exercise_tag_endpoint` (lines 829-852): the exception
raised inside `get_exercise_by_id` is caught by the generic
`except Exception` branch, which re-raises `HTTPException(500, str(e))`;
the remaining structure mirrors the other creation endpoints. -/
def create_exercise_tag_endpoint (newId : String) (db : DB)
    (payload : ExerciseTagCreateDTO) : ApiResult ExerciseTagCreateDTO × DB :=
  match get_exercise_by_id db payload.exercise_id with
  | .error e => (.err 500 e, db)
  | .ok none => (.err 400 "Exercício não encontrado", db)
  | .ok (some _) =>
    match get_tag_by_id db payload.tag_id with
    | none => (.err 400 "Tag não encontrada", db)
    | some _ =>
      match create_exercise_tag newId db payload with
      | (none, db2) => (.err 400 "Relacionamento já existe", db2)
      | (some et, db2) => (.ok 201 et, db2)

/-- routers.py `create_exercise_competition_endpoint` (lines 871-894): same
exception handling as the exercise-tag endpoint. -/
def create_exercise_competition_endpoint (newId : String) (db : DB)
    (payload : ExerciseCompetitionCreateDTO) :
    ApiResult ExerciseCompetitionCreateDTO × DB :=
  match get_exercise_by_id db payload.exercise_id with
  | .error e => (.err 500 e, db)
  | .ok none => (.err 400 "Exercício não encontrado", db)
  | .ok (some _) =>
    match get_competition_by_id db payload.competition_id with
    | none => (.err 400 "Competição não encontrada", db)
    | some _ =>
      match create_exercise_competition newId db payload with
      | (none, db2) => (.err 400 "Relacionamento já existe", db2)
      | (some ec, db2) => (.ok 201 ec, db2)

/-- routers.py `create_container_competition_endpoint` (lines 913-936). -/
def create_container_competition_endpoint (newId : String) (db : DB)
    (payload : ContainerCompetitionCreateDTO) :
    ApiResult ContainerCompetitionCreateDTO × DB :=
  match get_container_by_id db payload.container_id with
  | none => (.err 400 "Container não encontrado", db)
  | some _ =>
    match get_competition_by_id db payload.competition_id with
    | none => (.err 400 "Competição não encontrada", db)
    | some _ =>
      match create_container_competition newId db payload with
      | (none, db2) => (.err 400 "Relacionamento já existe", db2)
      | (some cc, db2) => (.ok 201 cc, db2)

/-- Discriminator for the six relationship tables (spec §2, §4.1 `kind`). -/
inductive Kind where
  | userCompetition
  | userTeam
  | teamCompetition
  | exerciseTag
  | exerciseCompetition
  | containerCompetition
deriving DecidableEq, Repr

/-- Uniform view of one relationship table: each row as
`(generated id, ref_a, ref_b)` in insertion order. -/
def relTriples (db : DB) : Kind → List (String × String × String)
  | .userCompetition =>
      db.user_competitions.map (fun r => (r.id, r.user_id, r.competition_id))
  | .userTeam =>
      db.user_teams.map (fun r => (r.id, r.user_id, r.team_id))
  | .teamCompetition =>
      db.team_competitions.map (fun r => (r.id, r.team_id, r.competition_id))
  | .exerciseTag =>
      db.exercise_tags.map (fun r => (r.id, r.exercise_id, r.tag_id))
  | .exerciseCompetition =>
      db.exercise_competitions.map (fun r => (r.id, r.exercise_id, r.competition_id))
  | .containerCompetition =>
      db.container_competitions.map (fun r => (r.id, r.container_id, r.competition_id))

/-- Generic create over the kind discriminator: dispatches to the per-kind
helper of dbutils_mysql.py and reports the returned DTO as its
(ref_a, ref_b) pair. -/
def create_relationship (newId : String) (db : DB) (k : Kind) (a b : String) :
    Option (String × String) × DB :=
  match k with
  | .userCompetition =>
      let (r, db2) := create_user_competition newId db ⟨a, b⟩
      (r.map (fun d => (d.user_id, d.competition_id)), db2)
  | .userTeam =>
      let (r, db2) := create_user_team newId db ⟨a, b⟩
      (r.map (fun d => (d.user_id, d.team_id)), db2)
  | .teamCompetition =>
      let (r, db2) := create_team_competition newId db ⟨a, b⟩
      (r.map (fun d => (d.team_id, d.competition_id)), db2)
  | .exerciseTag =>
      let (r, db2) := create_exercise_tag newId db ⟨a, b⟩
      (r.map (fun d => (d.exercise_id, d.tag_id)), db2)
  | .exerciseCompetition =>
      let (r, db2) := create_exercise_competition newId db ⟨a, b⟩
      (r.map (fun d => (d.exercise_id, d.competition_id)), db2)
  | .containerCompetition =>
      let (r, db2) := create_container_competition newId db ⟨a, b⟩
      (r.map (fun d => (d.container_id, d.competition_id)), db2)

/-- Generic delete over the kind discriminator: dispatches to the per-kind
helper of dbutils_mysql.py. -/
def delete_relationship (db : DB) (k : Kind) (a b : String) : Bool × DB :=
  match k with
  | .userCompetition => delete_user_competition db a b
  | .userTeam => delete_user_team db a b
  | .teamCompetition => delete_team_competition db a b
  | .exerciseTag => delete_exercise_tag db a b
  | .exerciseCompetition => delete_exercise_competition db a b
  | .containerCompetition => delete_container_competition db a b

/-- Spec §4.1 `lookup_relationship_existence`: the `existing = db.query(...)
.filter(pair).first()` test each create helper performs, as a Bool. -/
def lookup_relationship_existence (db : DB) (k : Kind) (a b : String) : Bool :=
  ((relTriples db k).find? (fun t => t.2.1 == a && t.2.2 == b)).isSome

/-- Generic view of the six creation endpoints of routers.py, reporting the
response payload as its (ref_a, ref_b) pair. -/
def create_relationship_endpoint (newId : String) (db : DB) (k : Kind)
    (a b : String) : ApiResult (String × String) × DB :=
  match k with
  | .userCompetition =>
      match create_user_competition_endpoint newId db ⟨a, b⟩ with
      | (.ok c d, db2) => (.ok c (d.user_id, d.competition_id), db2)
      | (.err c m, db2) => (.err c m, db2)
  | .userTeam =>
      match create_user_team_endpoint newId db ⟨a, b⟩ with
      | (.ok c d, db2) => (.ok c (d.user_id, d.team_id), db2)
      | (.err c m, db2) => (.err c m, db2)
  | .teamCompetition =>
      match create_team_competition_endpoint newId db ⟨a, b⟩ with
      | (.ok c d, db2) => (.ok c (d.team_id, d.competition_id), db2)
      | (.err c m, db2) => (.err c m, db2)
  | .exerciseTag =>
      match create_exercise_tag_endpoint newId db ⟨a, b⟩ with
      | (.ok c d, db2) => (.ok c (d.exercise_id, d.tag_id), db2)
      | (.err c m, db2) => (.err c m, db2)
  | .exerciseCompetition =>
      match create_exercise_competition_endpoint newId db ⟨a, b⟩ with
      | (.ok c d, db2) => (.ok c (d.exercise_id, d.competition_id), db2)
      | (.err c m, db2) => (.err c m, db2)
  | .containerCompetition =>
      match create_container_competition_endpoint newId db ⟨a, b⟩ with
      | (.ok c d, db2) => (.ok c (d.container_id, d.competition_id), db2)
      | (.err c m, db2) => (.err c m, db2)

/-- Existence of the left reference of a relationship kind in its entity
store (the precondition language of the spec).  For the user-, team- and
container-referencing kinds this is exactly the first check the creation
endpoint performs; for the exercise-referencing kinds it is the presence of
the exercise row — the situation in which the endpoint's first check, the
call to `get_exercise_by_id`, raises instead of answering. -/
def leftRefExists (db : DB) : Kind → String → Bool
  | .userCompetition, a => (get_user_by_id db a).isSome
  | .userTeam, a => (get_user_by_id db a).isSome
  | .teamCompetition, a => (get_team_by_id db a).isSome
  | .exerciseTag, a => (db.exercises.find? (fun e => e.id == a)).isSome
  | .exerciseCompetition, a => (db.exercises.find? (fun e => e.id == a)).isSome
  | .containerCompetition, a => (get_container_by_id db a).isSome

/-- Existence of the right reference of a relationship kind, exactly the
second check its creation endpoint performs. -/
def rightRefExists (db : DB) : Kind → String → Bool
  | .userCompetition, b => (get_competition_by_id db b).isSome
  | .userTeam, b => (get_team_by_id db b).isSome
  | .teamCompetition, b => (get_competition_by_id db b).isSome
  | .exerciseTag, b => (get_tag_by_id db b).isSome
  | .exerciseCompetition, b => (get_competition_by_id db b).isSome
  | .containerCompetition, b => (get_competition_by_id db b).isSome

/-- Detail string of the 400 raised when the left reference is missing
(routers.py, per kind). -/
def leftMissingMsg : Kind → String
  | .userCompetition => "Usuário não encontrado"
  | .userTeam => "Usuário não encontrado"
  | .teamCompetition => "Time não encontrado"
  | .exerciseTag => "Exercício não encontrado"
  | .exerciseCompetition => "Exercício não encontrado"
  | .containerCompetition => "Container não encontrado"

/-- Detail string of the 400 raised when the right reference is missing
(routers.py, per kind). -/
def rightMissingMsg : Kind → String
  | .userCompetition => "Competição não encontrada"
  | .userTeam => "Time não encontrado"
  | .teamCompetition => "Competição não encontrada"
  | .exerciseTag => "Tag não encontrada"
  | .exerciseCompetition => "Competição não encontrada"
  | .containerCompetition => "Competição não encontrada"

/-- Spec §3: pair-uniqueness of one relationship table — no two rows share
the same (ref_a, ref_b) pair. -/
def PairUnique (db : DB) (k : Kind) : Prop :=
  ((relTriples db k).map (fun t => t.2)).Nodup

/-- Agreement of the entity stores of two databases (the six entity tables
are equal; the relationship tables may differ). -/
def entityFrame (db1 db : DB) : Prop :=
  db1.users = db.users ∧ db1.competitions = db.competitions ∧
  db1.exercises = db.exercises ∧ db1.tags = db.tags ∧
  db1.teams = db.teams ∧ db1.containers = db.containers

/-- Agreement of two user rows on everything except the password column. -/
def UserPublicEq (u v : User) : Prop :=
  u.id = v.id ∧ u.username = v.username ∧ u.email = v.email ∧
  u.phone_number = v.phone_number ∧ u.is_admin = v.is_admin

/-- Sample database: one entity per store, no relationship rows. -/
def dbEx : DB :=
  { users := [{ id := "u1", username := "alice", email := "alice@mail",
                password := "hash1", phone_number := none, is_admin := false }],
    competitions := [{ id := "c1", name := "CTF", organizer := "org",
                       invite_code := "INV1", start_date := "2025-01-01T00:00:00",
                       end_date := "2025-01-02T00:00:00" }],
    exercises := [{ id := "e1", link := "http", name := "pwn", score := 100,
                    difficulty := "easy" }],
    tags := [{ id := "t1", type := "web" }],
    teams := [{ id := "m1", name := "crew", competition := "c1",
                creator := "u1", score := 0 }],
    containers := [{ id := "d1", deadline := "2025-01-03T00:00:00" }],
    user_competitions := [], user_teams := [], team_competitions := [],
    exercise_tags := [], exercise_competitions := [],
    container_competitions := [] }

/-- Sample database with one user-competition relationship row. -/
def dbEx2 : DB :=
  { dbEx with user_competitions := [{ id := "r1", user_id := "u1",
                                      competition_id := "c1" }] }

/-- Sample database with two duplicate user-competition rows (a store that
violates the pair-uniqueness invariant). -/
def dbEx3 : DB :=
  { dbEx with user_competitions :=
      [{ id := "r1", user_id := "u1", competition_id := "c1" },
       { id := "r2", user_id := "u1", competition_id := "c1" }] }

/-- Sample database identical to `dbEx` except for the stored password. -/
def dbExAltPass : DB :=
  { dbEx with users := [{ id := "u1", username := "alice", email := "alice@mail",
                          password := "hash2", phone_number := none,
                          is_admin := false }] }

/-- Sample database with one exercise-tag relationship row. -/
def dbEx4 : DB :=
  { dbEx with exercise_tags := [{ id := "r1", exercise_id := "e1",
                                  tag_id := "t1" }] }

/-- Appending a row whose pair is absent keeps the pair list duplicate-free. -/
theorem pairUnique_append_core (L : List (String × String × String)) (a b : String)
    (h : ∀ t ∈ L, ¬(t.2.1 = a ∧ t.2.2 = b))
    (hu : (L.map (fun t => t.2)).Nodup) :
    ((L.map (fun t => t.2)) ++ [(a, b)]).Nodup := by
  rw [List.nodup_append]
  refine ⟨hu, List.nodup_singleton _, ?_⟩
  intro p hp hq
  simp only [List.mem_singleton] at hq
  subst hq
  rcases List.mem_map.1 hp with ⟨t, ht, heq⟩
  exact h t ht ⟨congrArg Prod.fst heq, congrArg Prod.snd heq⟩

/-- When a row with the requested pair already exists, every create helper
returns None and leaves the whole database untouched. -/
theorem create_of_lookup_true (newId : String) (db : DB) (k : Kind) (a b : String)
    (h : lookup_relationship_existence db k a b = true) :
    create_relationship newId db k a b = (none, db) := by
  cases k <;>
  · simp only [lookup_relationship_existence, relTriples, List.find?_map,
      Option.isSome_map', Function.comp_def] at h
    obtain ⟨x, hx⟩ := Option.isSome_iff_exists.1 h
    simp only [create_relationship, create_user_competition, create_user_team,
      create_team_competition, create_exercise_tag, create_exercise_competition,
      create_container_competition]
    rw [hx]
    rfl

/-- When no row with the requested pair exists, every create helper returns
the new pair, appends exactly one row carrying the fresh id, and touches
nothing else in the database. -/
theorem create_of_lookup_false (newId : String) (db : DB) (k : Kind) (a b : String)
    (h : lookup_relationship_existence db k a b = false) :
    ∃ db2, create_relationship newId db k a b = (some (a, b), db2) ∧
      relTriples db2 k = relTriples db k ++ [(newId, a, b)] ∧
      entityFrame db2 db ∧
      ∀ k', k' ≠ k → relTriples db2 k' = relTriples db k' := by
  cases k <;>
  · simp only [lookup_relationship_existence, relTriples, List.find?_map,
      Option.isSome_map', Bool.eq_false_iff, Function.comp_def] at h
    have hx := Option.not_isSome_iff_eq_none.1 h
    simp only [create_relationship, create_user_competition, create_user_team,
      create_team_competition, create_exercise_tag, create_exercise_competition,
      create_container_competition]
    rw [hx]
    refine ⟨_, rfl, ?_, ⟨rfl, rfl, rfl, rfl, rfl, rfl⟩, ?_⟩
    · simp [relTriples]
    · intro k' hk'
      cases k' <;> simp_all [relTriples]

/-- Deleting an absent pair is a no-op returning False, for every kind. -/
theorem delete_of_lookup_false (db : DB) (k : Kind) (a b : String)
    (h : lookup_relationship_existence db k a b = false) :
    delete_relationship db k a b = (false, db) := by
  cases k <;>
  · simp only [lookup_relationship_existence, relTriples, List.find?_map,
      Option.isSome_map', Bool.eq_false_iff, Function.comp_def] at h
    have hx := Option.not_isSome_iff_eq_none.1 h
    simp only [delete_relationship, delete_user_competition, delete_user_team,
      delete_team_competition, delete_exercise_tag, delete_exercise_competition,
      delete_container_competition]
    rw [hx]

/-- Deleting a present pair returns True, erases the first matching row of
that kind, and touches nothing else in the database. -/
theorem delete_of_lookup_true (db : DB) (k : Kind) (a b : String)
    (h : lookup_relationship_existence db k a b = true) :
    ∃ db2, delete_relationship db k a b = (true, db2) ∧
      relTriples db2 k =
        (relTriples db k).eraseP (fun t => t.2.1 == a && t.2.2 == b) ∧
      entityFrame db2 db ∧
      ∀ k', k' ≠ k → relTriples db2 k' = relTriples db k' := by
  cases k <;>
  · simp only [lookup_relationship_existence, relTriples, List.find?_map,
      Option.isSome_map', Function.comp_def] at h
    obtain ⟨x, hx⟩ := Option.isSome_iff_exists.1 h
    simp only [delete_relationship, delete_user_competition, delete_user_team,
      delete_team_competition, delete_exercise_tag, delete_exercise_competition,
      delete_container_competition]
    rw [hx]
    refine ⟨_, rfl, ?_, ⟨rfl, rfl, rfl, rfl, rfl, rfl⟩, ?_⟩
    · simp only [relTriples, List.eraseP_map, Function.comp_def]
    · intro k' hk'
      cases k' <;> simp_all [relTriples]

/-- Erasing one matching element lowers the matching count by exactly one. -/
theorem countP_eraseP_of_mem {α : Type} (p : α → Bool) (l : List α)
    (h : ∃ x ∈ l, p x = true) :
    (l.eraseP p).countP p = l.countP p - 1 := by
  induction l with
  | nil => simp at h
  | cons a l ih =>
    by_cases hpa : p a = true
    · simp [List.eraseP_cons, hpa, List.countP_cons]
    · obtain ⟨x, hx, hpx⟩ := h
      rcases List.mem_cons.1 hx with rfl | hx'
      · exact absurd hpx hpa
      · rw [Bool.not_eq_true] at hpa
        simp only [List.eraseP_cons, hpa, cond_false, List.countP_cons]
        have := ih ⟨x, hx', hpx⟩
        have hpos : 0 < l.countP p := List.countP_pos_iff.2 ⟨x, hx', hpx⟩
        simp [hpa, this]

/-- Erasing an element that the filter would discard anyway does not change
the filtered list. -/
theorem filter_eraseP_of_disjoint {α : Type} (p q : α → Bool) (l : List α)
    (h : ∀ x, p x = true → q x = false) :
    (l.eraseP p).filter q = l.filter q := by
  induction l with
  | nil => rfl
  | cons a l ih =>
    by_cases hpa : p a = true
    · simp [List.eraseP_cons, hpa, List.filter_cons, h a hpa]
    · rw [Bool.not_eq_true] at hpa
      simp only [List.eraseP_cons, hpa, cond_false]
      rw [List.filter_cons, List.filter_cons]
      cases hqa : q a <;> simp [hqa, ih]

/-- In a duplicate-free pair list at most one row matches a given pair. -/
theorem countP_pair_le_one (L : List (String × String × String)) (a b : String)
    (hu : (L.map (fun t => t.2)).Nodup) :
    L.countP (fun t => t.2.1 == a && t.2.2 == b) ≤ 1 := by
  induction L with
  | nil => simp
  | cons t L ih =>
    rw [List.map_cons, List.nodup_cons] at hu
    rw [List.countP_cons]
    by_cases hpt : (t.2.1 == a && t.2.2 == b) = true
    · have ht2 : t.2 = (a, b) := by
        simp only [Bool.and_eq_true, beq_iff_eq] at hpt
        exact Prod.ext hpt.1 hpt.2
      have hz : L.countP (fun t => t.2.1 == a && t.2.2 == b) = 0 := by
        rw [List.countP_eq_zero]
        intro u hu2 hpu
        simp only [Bool.and_eq_true, beq_iff_eq] at hpu
        have hu2' : u.2 = (a, b) := Prod.ext hpu.1 hpu.2
        exact hu.1 (List.mem_map.2 ⟨u, hu2, by rw [hu2', ht2]⟩)
      simp [hpt, hz]
    · simp only [hpt, if_neg, Bool.false_eq_true, ite_false]
      · exact Nat.le_trans (Nat.le_of_eq (by simp [hpt])) (ih hu.2)

/-- Absence of a pair is exactly a failing find? on the triple list. -/
theorem lookup_false_iff (db : DB) (k : Kind) (a b : String) :
    lookup_relationship_existence db k a b = false ↔
      (relTriples db k).find? (fun t => t.2.1 == a && t.2.2 == b) = none := by
  unfold lookup_relationship_existence
  cases h : (relTriples db k).find? (fun t => t.2.1 == a && t.2.2 == b) <;>
    simp [h]

/-- After appending a row with the requested pair, the lookup reports it. -/
theorem lookup_appended (db1 db : DB) (k : Kind) (n a b : String)
    (htr : relTriples db1 k = relTriples db k ++ [(n, a, b)]) :
    lookup_relationship_existence db1 k a b = true := by
  simp [lookup_relationship_existence, htr, List.find?_append]

/-- The user lookup yields the same DTO on two user lists agreeing outside
the password column. -/
theorem userLookup_congr (uid : String) {us1 us2 : List User}
    (h : List.Forall₂ UserPublicEq us1 us2) :
    (match us1.find? (fun u => u.id == uid) with
     | some u => some (⟨u.id, u.username, u.email, u.phone_number⟩ : UserReadDTO)
     | none => none) =
    (match us2.find? (fun u => u.id == uid) with
     | some u => some (⟨u.id, u.username, u.email, u.phone_number⟩ : UserReadDTO)
     | none => none) := by
  induction h with
  | nil => rfl
  | cons hab htail ih =>
    rename_i a b l1 l2
    obtain ⟨hid, hun, hem, hph, had⟩ := hab
    rw [List.find?_cons, List.find?_cons, hid]
    cases hb : (b.id == uid)
    · simpa using ih
    · simp [hid, hun, hem, hph]

/-- C1: pair-uniqueness is an invariant of the relationship store — for every
relationship kind, starting from a store in which no two rows of that kind
share the same (ref_a, ref_b) pair, both the create helper (which checks for
an existing row and inserts only when none is found) and the delete helper
leave a store in which still no two rows of that kind share the same pair. -/
theorem C1_pair_uniqueness_invariant (db : DB) (k : Kind) (newId a b : String)
    (hu : PairUnique db k) :
    PairUnique (create_relationship newId db k a b).2 k ∧
    PairUnique (delete_relationship db k a b).2 k := by
  constructor
  · cases hl : lookup_relationship_existence db k a b
    · obtain ⟨db2, he, htr, -, -⟩ := create_of_lookup_false newId db k a b hl
      rw [he]
      simp only [PairUnique, htr, List.map_append, List.map_cons, List.map_nil]
      apply pairUnique_append_core _ a b ?_ hu
      intro t ht hc
      have hn := (lookup_false_iff db k a b).1 hl
      rw [List.find?_eq_none] at hn
      have := hn t ht
      simp only [Bool.and_eq_true, beq_iff_eq, not_and] at this
      exact this hc.1 hc.2
    · rw [create_of_lookup_true newId db k a b hl]
      exact hu
  · cases hl : lookup_relationship_existence db k a b
    · rw [delete_of_lookup_false db k a b hl]
      exact hu
    · obtain ⟨db2, he, htr, -, -⟩ := delete_of_lookup_true db k a b hl
      rw [he]
      simp only [PairUnique, htr]
      exact ((List.eraseP_sublist _).map _).nodup hu

/-- Witness for C1 at the concrete store `dbEx` and the UserCompetition kind. -/
theorem C1_pair_uniqueness_invariant_witness :
    PairUnique dbEx Kind.userCompetition ∧
    (PairUnique (create_relationship "r1" dbEx Kind.userCompetition "u1" "c1").2
        Kind.userCompetition ∧
     PairUnique (delete_relationship dbEx Kind.userCompetition "u1" "c1").2
        Kind.userCompetition) :=
  ⟨by unfold PairUnique; decide,
   C1_pair_uniqueness_invariant dbEx Kind.userCompetition "r1" "u1" "c1"
     (by unfold PairUnique; decide)⟩

/-- C2 (code bug): the claim states the intended contract — with both
referenced entities in their stores and no prior pair, creation succeeds
once (201) and the identical repeat fails with 400 — and the repository's
own test suite (teste.py, the Exercise-Tag and Exercise-Competition steps)
expects exactly that; but for the exercise-referencing kinds the code slips:
`get_exercise_by_id` reads `exercise.port` (dbutils_mysql.py line 248), a
column the `Exercise` model does not have, so the endpoint answers 500
whenever the exercise exists and can never produce the 201-then-400
behavior.  This theorem evaluates the endpoint at the failing input: both
entities present, no pair recorded, yet the response is 500 and nothing is
inserted. -/
theorem C2_exercise_kind_crashes :
    leftRefExists dbEx Kind.exerciseTag "e1" = true ∧
    rightRefExists dbEx Kind.exerciseTag "t1" = true ∧
    lookup_relationship_existence dbEx Kind.exerciseTag "e1" "t1" = false ∧
    create_relationship_endpoint "r1" dbEx Kind.exerciseTag "e1" "t1" =
      (.err 500 exercisePortError, dbEx) := by
  decide

/-- C3 (code bug): the claim states the intended contract — a missing
reference yields 400 naming the failed side — and it does hold when the
left check is the one that fails; but for the exercise-referencing kinds
with the exercise present and the right reference missing, the code crashes
in `get_exercise_by_id` (`exercise.port`, a column the `Exercise` model does
not have) before the right-side check runs, so the endpoint answers 500
instead of the 400 naming the missing entity.  This theorem evaluates the
endpoint at the failing input: exercise present, tag absent, response 500. -/
theorem C3_exercise_kind_crashes :
    leftRefExists dbEx Kind.exerciseTag "e1" = true ∧
    rightRefExists dbEx Kind.exerciseTag "zz" = false ∧
    create_relationship_endpoint "r1" dbEx Kind.exerciseTag "e1" "zz" =
      (.err 500 exercisePortError, dbEx) := by
  decide

/-- C4: delete is idempotent for every kind and pair — in a pair-unique store
holding the record for (ref_a, ref_b), the first delete call removes it and
returns True; the second identical call returns False and performs no write
(it returns the intermediate store unchanged), and after both calls no row
of that kind with that pair remains. -/
theorem C4_delete_idempotent (db : DB) (k : Kind) (a b : String)
    (hu : PairUnique db k)
    (hp : lookup_relationship_existence db k a b = true) :
    ∃ db1,
      delete_relationship db k a b = (true, db1) ∧
      delete_relationship db1 k a b = (false, db1) ∧
      lookup_relationship_existence db1 k a b = false := by
  obtain ⟨db1, hd, htr, -, -⟩ := delete_of_lookup_true db k a b hp
  have hmem : ∃ x ∈ relTriples db k, (x.2.1 == a && x.2.2 == b) = true := by
    simp only [lookup_relationship_existence] at hp
    obtain ⟨x, hx⟩ := Option.isSome_iff_exists.1 hp
    have hps := List.find?_some hx
    exact ⟨x, List.mem_of_find?_eq_some hx, hps⟩
  have hc1 : (relTriples db k).countP (fun t => t.2.1 == a && t.2.2 == b) ≤ 1 :=
    countP_pair_le_one _ a b hu
  have hc0 : (relTriples db1 k).countP (fun t => t.2.1 == a && t.2.2 == b) = 0 := by
    rw [htr, countP_eraseP_of_mem _ _ hmem]
    have : 0 < (relTriples db k).countP (fun t => t.2.1 == a && t.2.2 == b) :=
      List.countP_pos_iff.2 hmem
    omega
  have hlk : lookup_relationship_existence db1 k a b = false := by
    rw [lookup_false_iff, List.find?_eq_none]
    intro x hx
    rw [List.countP_eq_zero] at hc0
    exact fun hpx => hc0 x hx hpx
  exact ⟨db1, hd, delete_of_lookup_false db1 k a b hlk, hlk⟩

/-- Witness for C4 at the concrete store `dbEx2` holding the pair. -/
theorem C4_delete_idempotent_witness :
    PairUnique dbEx2 Kind.userCompetition ∧
    lookup_relationship_existence dbEx2 Kind.userCompetition "u1" "c1" = true ∧
    (∃ db1,
      delete_relationship dbEx2 Kind.userCompetition "u1" "c1" = (true, db1) ∧
      delete_relationship db1 Kind.userCompetition "u1" "c1" = (false, db1) ∧
      lookup_relationship_existence db1 Kind.userCompetition "u1" "c1" = false) :=
  ⟨by unfold PairUnique; decide, by decide,
   C4_delete_idempotent dbEx2 Kind.userCompetition "u1" "c1"
     (by unfold PairUnique; decide) (by decide)⟩

/-- C5 (code bug): the helper half of the claim is true of the code — on a
present pair every create helper, the exercise ones included, returns None
and leaves the store unchanged — but the handler half is unreachable for the
exercise-referencing kinds: the endpoint crashes in `get_exercise_by_id`
(`exercise.port`, a column the `Exercise` model does not have) at the
existence check, before the helper can return the absent result, so no 400
"Relacionamento já existe" is ever produced there.  This theorem evaluates
the failing input: pair already recorded, helper returns None with the store
unchanged, yet the endpoint answers 500. -/
theorem C5_exercise_kind_crashes :
    lookup_relationship_existence dbEx4 Kind.exerciseTag "e1" "t1" = true ∧
    create_relationship "r9" dbEx4 Kind.exerciseTag "e1" "t1" = (none, dbEx4) ∧
    create_relationship_endpoint "r9" dbEx4 Kind.exerciseTag "e1" "t1" =
      (.err 500 exercisePortError, dbEx4) := by
  decide

/-- C6 (code bug): at the helper level a successful creation does insert a
row with the fresh identifier and return the created pair, for the exercise
kinds too; but the claimed 201 response carrying the created record is
impossible for those kinds — the endpoint crashes in `get_exercise_by_id`
(`exercise.port`, a column the `Exercise` model does not have) whenever the
exercise exists, answering 500 before the helper runs, while the test suite
expects the creation to succeed.  This theorem evaluates the failing input:
the helper succeeds and returns the pair, yet the endpoint answers 500. -/
theorem C6_exercise_kind_no_201 :
    (create_relationship "r1" dbEx Kind.exerciseTag "e1" "t1").1
      = some ("e1", "t1") ∧
    leftRefExists dbEx Kind.exerciseTag "e1" = true ∧
    rightRefExists dbEx Kind.exerciseTag "t1" = true ∧
    create_relationship_endpoint "r1" dbEx Kind.exerciseTag "e1" "t1" =
      (.err 500 exercisePortError, dbEx) := by
  decide

/-- C7: round trip for every kind and pair — after a successful create of
(ref_a, ref_b), the lookup of that pair reports PRESENT; after a subsequent
delete of the same pair, the lookup reports ABSENT. -/
theorem C7_round_trip (newId : String) (db : DB) (k : Kind) (a b : String)
    (hs : (create_relationship newId db k a b).1.isSome = true) :
    lookup_relationship_existence (create_relationship newId db k a b).2 k a b
      = true ∧
    lookup_relationship_existence
      (delete_relationship (create_relationship newId db k a b).2 k a b).2 k a b
      = false := by
  cases hl : lookup_relationship_existence db k a b
  · obtain ⟨db1, hc, htr, -, -⟩ := create_of_lookup_false newId db k a b hl
    rw [hc]
    have hpres := lookup_appended db1 db k newId a b htr
    refine ⟨hpres, ?_⟩
    obtain ⟨db2, hd, htr2, -, -⟩ := delete_of_lookup_true db1 k a b hpres
    rw [hd]
    have hn := (lookup_false_iff db k a b).1 hl
    rw [List.find?_eq_none] at hn
    have htr2' : relTriples db2 k = relTriples db k := by
      rw [htr2, htr, List.eraseP_append_right _ hn]
      simp
    rw [lookup_false_iff, htr2', ← lookup_false_iff]
    exact hl
  · rw [create_of_lookup_true newId db k a b hl] at hs
    simp at hs

/-- Witness for C7 at the concrete store `dbEx`. -/
theorem C7_round_trip_witness :
    (create_relationship "r1" dbEx Kind.userCompetition "u1" "c1").1.isSome
      = true ∧
    (lookup_relationship_existence
        (create_relationship "r1" dbEx Kind.userCompetition "u1" "c1").2
        Kind.userCompetition "u1" "c1" = true ∧
     lookup_relationship_existence
        (delete_relationship
          (create_relationship "r1" dbEx Kind.userCompetition "u1" "c1").2
          Kind.userCompetition "u1" "c1").2
        Kind.userCompetition "u1" "c1" = false) :=
  ⟨by decide,
   C7_round_trip "r1" dbEx Kind.userCompetition "u1" "c1" (by decide)⟩

/-- C8: deleting a competition does not cascade — for every competition id,
`delete_competition` leaves every row of all six relationship tables (and
every other entity table) unchanged, and changes only the competitions
table, by erasing the first row with the given id when one exists. -/
theorem C8_delete_competition_no_cascade (db : DB) (competition_id : String) :
    (delete_competition db competition_id).2.user_competitions
      = db.user_competitions ∧
    (delete_competition db competition_id).2.user_teams = db.user_teams ∧
    (delete_competition db competition_id).2.team_competitions
      = db.team_competitions ∧
    (delete_competition db competition_id).2.exercise_tags = db.exercise_tags ∧
    (delete_competition db competition_id).2.exercise_competitions
      = db.exercise_competitions ∧
    (delete_competition db competition_id).2.container_competitions
      = db.container_competitions ∧
    (delete_competition db competition_id).2.users = db.users ∧
    (delete_competition db competition_id).2.exercises = db.exercises ∧
    (delete_competition db competition_id).2.tags = db.tags ∧
    (delete_competition db competition_id).2.teams = db.teams ∧
    (delete_competition db competition_id).2.containers = db.containers ∧
    (delete_competition db competition_id).2.competitions =
      (if (db.competitions.find? (fun c => c.id == competition_id)).isSome
       then db.competitions.eraseP (fun c => c.id == competition_id)
       else db.competitions) := by
  unfold delete_competition
  cases h : db.competitions.find? (fun c => c.id == competition_id) <;> simp [h]

/-- C9: the user existence adapter never reveals the password — for any two
databases whose user stores agree on every column except the password,
`get_user_by_id` returns identical results for every id (the returned
`UserReadDTO` carries only id, username, email and phone_number). -/
theorem C9_password_noninterference (db1 db2 : DB)
    (husers : List.Forall₂ UserPublicEq db1.users db2.users) (uid : String) :
    get_user_by_id db1 uid = get_user_by_id db2 uid := by
  have := userLookup_congr uid husers
  simpa [get_user_by_id] using this

/-- Witness for C9 at two concrete stores differing only in the password. -/
theorem C9_password_noninterference_witness :
    List.Forall₂ UserPublicEq dbEx.users dbExAltPass.users ∧
    get_user_by_id dbEx "u1" = get_user_by_id dbExAltPass "u1" :=
  ⟨List.Forall₂.cons ⟨rfl, rfl, rfl, rfl, rfl⟩ List.Forall₂.nil,
   C9_password_noninterference dbEx dbExAltPass
     (List.Forall₂.cons ⟨rfl, rfl, rfl, rfl, rfl⟩ List.Forall₂.nil) "u1"⟩

/-- C10: each delete call removes at most one row — for every kind, even in a
store that holds several rows of that kind with the same pair, one call
returns True, shrinks the table by exactly one row, lowers the count of rows
matching the pair by exactly one, keeps every row with a different pair, and
leaves every other relationship table unchanged. -/
theorem C10_delete_removes_one (db : DB) (k : Kind) (a b : String)
    (hp : lookup_relationship_existence db k a b = true) :
    ∃ db1,
      delete_relationship db k a b = (true, db1) ∧
      (relTriples db1 k).length = (relTriples db k).length - 1 ∧
      (relTriples db1 k).countP (fun t => t.2.1 == a && t.2.2 == b) =
        (relTriples db k).countP (fun t => t.2.1 == a && t.2.2 == b) - 1 ∧
      (relTriples db1 k).filter (fun t => !(t.2.1 == a && t.2.2 == b)) =
        (relTriples db k).filter (fun t => !(t.2.1 == a && t.2.2 == b)) ∧
      (∀ k', k' ≠ k → relTriples db1 k' = relTriples db k') := by
  obtain ⟨db1, hd, htr, -, hkk⟩ := delete_of_lookup_true db k a b hp
  have hmem : ∃ x ∈ relTriples db k, (x.2.1 == a && x.2.2 == b) = true := by
    simp only [lookup_relationship_existence] at hp
    obtain ⟨x, hx⟩ := Option.isSome_iff_exists.1 hp
    have hps := List.find?_some hx
    exact ⟨x, List.mem_of_find?_eq_some hx, hps⟩
  obtain ⟨x, hxm, hxp⟩ := hmem
  refine ⟨db1, hd, ?_, ?_, ?_, hkk⟩
  · rw [htr]
    exact List.length_eraseP_of_mem hxm hxp
  · rw [htr]
    exact countP_eraseP_of_mem _ _ ⟨x, hxm, hxp⟩
  · rw [htr]
    exact filter_eraseP_of_disjoint _ _ _ (fun y hy => by simp [hy])

/-- Witness for C10 at the concrete store `dbEx3` holding two duplicate rows. -/
theorem C10_delete_removes_one_witness :
    lookup_relationship_existence dbEx3 Kind.userCompetition "u1" "c1" = true ∧
    (∃ db1,
      delete_relationship dbEx3 Kind.userCompetition "u1" "c1" = (true, db1) ∧
      (relTriples db1 Kind.userCompetition).length
        = (relTriples dbEx3 Kind.userCompetition).length - 1 ∧
      (relTriples db1 Kind.userCompetition).countP
          (fun t => t.2.1 == "u1" && t.2.2 == "c1")
        = (relTriples dbEx3 Kind.userCompetition).countP
            (fun t => t.2.1 == "u1" && t.2.2 == "c1") - 1 ∧
      (relTriples db1 Kind.userCompetition).filter
          (fun t => !(t.2.1 == "u1" && t.2.2 == "c1"))
        = (relTriples dbEx3 Kind.userCompetition).filter
            (fun t => !(t.2.1 == "u1" && t.2.2 == "c1")) ∧
      (∀ k', k' ≠ Kind.userCompetition →
        relTriples db1 k' = relTriples dbEx3 k')) :=
  ⟨by decide,
   C10_delete_removes_one dbEx3 Kind.userCompetition "u1" "c1" (by decide)⟩

end Lyco
